import Mathlib

/-!
Verification of the OracleMCP query safety and execution engine.

The JavaScript source is shallowly embedded: JS strings are modelled as
Lean `String` (operated on through their character list, so that `length`,
`substring`, `trim`, `toUpperCase`, `startsWith`, `includes` have the
evident list semantics; astral characters are modelled as single
characters), JS numbers as `Int`/`Nat`, `undefined`/`null` arguments as
`Option`, thrown `OracleMapError`s as `Except`, and the database driver
as an explicit record of outcomes for each native call the code can make,
with the sequence of issued native calls returned as a trace.
-/

/-- Whitespace characters recognised by a JS regex `\s` and by
`String.prototype.trim`, restricted to the ASCII ones that occur in SQL
text. -/
def isWs (c : Char) : Bool :=
  c == ' ' || c == '\t' || c == '\n' || c == '\r'

/-- Model of `String.prototype.trim`. -/
def jsTrim (s : String) : String :=
  String.mk (((s.data.dropWhile isWs).reverse.dropWhile isWs).reverse)

/-- Model of `String.prototype.toUpperCase` (ASCII). -/
def jsUpper (s : String) : String :=
  String.mk (s.data.map Char.toUpper)

/-- Model of `String.prototype.startsWith`. -/
def jsStartsWith (s p : String) : Bool :=
  p.data.isPrefixOf s.data

/-- Model of `String.prototype.endsWith`. -/
def jsEndsWith (s p : String) : Bool :=
  p.data.isSuffixOf s.data

/-- Helper for `jsIncludes`: does `p` occur as a contiguous sublist of `l`. -/
def infixOf (p : List Char) : List Char → Bool
  | [] => p.isPrefixOf []
  | c :: cs => p.isPrefixOf (c :: cs) || infixOf p cs

/-- Model of `String.prototype.includes`. -/
def jsIncludes (s p : String) : Bool :=
  infixOf p.data s.data

/-- JS string length (`s.length`). -/
def jsLength (s : String) : Nat :=
  s.data.length

/-- Model of `s.substring(0, n)`. -/
def jsTake (s : String) (n : Nat) : String :=
  String.mk (s.data.take n)

/-- Split a character list into the (possibly empty) maximal chunks that
lie between characters satisfying `p`.  This is the chunk decomposition
induced by a delimiter class: `splitChunks p l` always returns at least
one chunk, and `c` satisfying `p` never occurs inside a chunk. -/
def splitChunks (p : Char → Bool) : List Char → List (List Char)
  | [] => [[]]
  | c :: cs =>
    match splitChunks p cs with
    | [] => [[]]
    | h :: t => if p c then [] :: h :: t else (c :: h) :: t

/-- The JS regex test `(^|\s)K(\s|$)` with the `i` flag, for an uppercase
keyword `kw`, holds exactly when some maximal whitespace-delimited chunk
of `s` uppercases to `kw`. -/
def standaloneWs (s kw : String) : Bool :=
  (splitChunks isWs s.data).any (fun t => t.map Char.toUpper == kw.data)

/-- Delimiter class of the DML blacklist regex `(^|\s|\()K(\s|\(|$)`:
whitespace or an opening parenthesis. -/
def isDmlBoundary (c : Char) : Bool :=
  isWs c || c == '('

/-- The JS regex test `(^|\s|\()K(\s|\(|$)` with the `i` flag, for an
uppercase keyword `kw`. -/
def standaloneDml (s kw : String) : Bool :=
  (splitChunks isDmlBoundary s.data).any (fun t => t.map Char.toUpper == kw.data)

/-- JS `\w` word characters: ASCII letters, digits, underscore. -/
def wordChar (c : Char) : Bool :=
  c.isAlpha || c.isDigit || c == '_'

/-- The JS regex test `\bWHERE\b` with the `i` flag: some maximal run of
word characters uppercases to `WHERE`. -/
def containsWordWhere (s : String) : Bool :=
  (splitChunks (fun c => !wordChar c) s.data).any
    (fun t => t.map Char.toUpper == "WHERE".data)

/-- Model of `Array.prototype.join(', ')`. -/
def joinComma : List String → String
  | [] => ""
  | [p] => p
  | p :: q :: rest => p ++ ", " ++ joinComma (q :: rest)

/-- Model of `Array.prototype.join(' ')`. -/
def joinSpace : List String → String
  | [] => ""
  | [p] => p
  | p :: q :: rest => p ++ " " ++ joinSpace (q :: rest)

/-!
Security policy module (`src/config/security.js`): row-limit ceiling,
table whitelist from the `ORACLE_TABLE_WHITELIST` environment variable,
and the DML statement validator.
-/

/-- `MAX_ROWS_LIMIT` from `security.js`. -/
def MAX_ROWS_LIMIT : Int := 1000

/-- `enforceRowLimit(requestedLimit, defaultLimit = 100)`.  A JS
`undefined`/`null` request is `none`. -/
def enforceRowLimit (requestedLimit : Option Int) (defaultLimit : Int) : Int :=
  match requestedLimit with
  | none => min defaultLimit MAX_ROWS_LIMIT
  | some r => min (max 1 r) MAX_ROWS_LIMIT

/-- `getTableWhitelist()`.  The environment variable is passed explicitly:
`none` models an unset variable.  The JS `Set` is modelled as the list of
its members in insertion order (`Array.from(set)`), obtained by removing
later duplicates. -/
def getTableWhitelist (env : Option String) : Option (List String) :=
  match env with
  | none => none
  | some w =>
    if jsTrim w == "" then none
    else
      some ((((splitChunks (fun c => c == ',') w.data).map
        (fun t => jsUpper (jsTrim (String.mk t)))).filter
          (fun t => 0 < jsLength t)).dedup)

/-- Result record of `checkTableAccess`. -/
structure AccessResult where
  allowed : Bool
  message : Option String
deriving DecidableEq

/-- `checkTableAccess(tableName)`, with the whitelist environment variable
passed explicitly. -/
def checkTableAccess (env : Option String) (tableName : String) : AccessResult :=
  match getTableWhitelist env with
  | none => ⟨true, none⟩
  | some whitelist =>
    if whitelist.contains (jsUpper tableName) then ⟨true, none⟩
    else
      ⟨false, some ("表 " ++ tableName ++ " 不在允许访问的白名单中。允许的表: "
        ++ joinComma whitelist)⟩

/-- `DML_ALLOWED_VERBS` from `security.js`. -/
def DML_ALLOWED_VERBS : List String := ["INSERT", "UPDATE"]

/-- `DML_BLACKLIST_KEYWORDS` from `security.js`. -/
def DML_BLACKLIST_KEYWORDS : List String :=
  ["DELETE", "TRUNCATE", "DROP", "ALTER", "CREATE", "GRANT", "REVOKE"]

/-- Result record of `validateDmlSql`. -/
structure DmlValidation where
  valid : Bool
  error : Option String
  verb : Option String
deriving DecidableEq

/-- `validateDmlSql(sql)` from `security.js`.  Only string inputs are
modelled; the JS falsiness test `!sql` on a string is the empty-string
test. -/
def validateDmlSql (sql : String) : DmlValidation :=
  if sql == "" then ⟨false, some "SQL 语句不能为空", none⟩
  else
    let trimmedSql := jsTrim sql
    let upperSql := jsUpper trimmedSql
    match DML_ALLOWED_VERBS.find? (fun v => jsStartsWith upperSql v) with
    | none => ⟨false, some "只允许执行 INSERT/UPDATE 语句", none⟩
    | some matchedVerb =>
      match DML_BLACKLIST_KEYWORDS.find? (fun k => standaloneDml trimmedSql k) with
      | some keyword =>
        ⟨false, some ("SQL 中包含禁止的关键字: " ++ keyword), some matchedVerb⟩
      | none =>
        if matchedVerb == "UPDATE" && !containsWordWhere trimmedSql then
          ⟨false, some "UPDATE 语句必须包含 WHERE 子句，防止全表更新", some matchedVerb⟩
        else ⟨true, none, some matchedVerb⟩

example : enforceRowLimit (some 5000) 100 = 1000 := by decide
example : enforceRowLimit none 100 = 100 := by decide
example : getTableWhitelist (some "a, b") = some ["A", "B"] := by decide
example : (validateDmlSql "UPDATE T SET A=1 WHERE ID=1").valid = true := by decide

/-!
Error classifier module (`src/utils/errors.js`): error code taxonomy,
exit-code derivation, and the `OracleMapError` record.
-/

/-- Error code group: connection errors (1xx). -/
def ErrorCode.CONNECTION_FAILED : Nat := 101

/-- Authentication failure (connection class). -/
def ErrorCode.AUTH_FAILED : Nat := 102

/-- Connection timeout (connection class). -/
def ErrorCode.TIMEOUT : Nat := 103

/-- Configuration file missing (2xx class). -/
def ErrorCode.CONFIG_NOT_FOUND : Nat := 201

/-- Table or view not found (3xx query class). -/
def ErrorCode.TABLE_NOT_FOUND : Nat := 301

/-- SQL rejected by a validator or by a native syntax error. -/
def ErrorCode.SQL_SYNTAX_ERROR : Nat := 302

/-- Generic query execution failure. -/
def ErrorCode.QUERY_EXECUTION_ERROR : Nat := 303

/-- Table not in the whitelist. -/
def ErrorCode.ACCESS_DENIED : Nat := 304

/-- Output file already exists (4xx class). -/
def ErrorCode.FILE_EXISTS : Nat := 401

/-- Unknown error code. -/
def ErrorCode.UNKNOWN : Nat := 999

/-- Process exit code for success. -/
def ExitCode.SUCCESS : Nat := 0

/-- Process exit code for connection-class errors. -/
def ExitCode.CONNECTION_ERROR : Nat := 1

/-- Process exit code for configuration-class errors. -/
def ExitCode.CONFIG_ERROR : Nat := 2

/-- Process exit code for query-class errors. -/
def ExitCode.QUERY_ERROR : Nat := 3

/-- Process exit code for output-class errors. -/
def ExitCode.OUTPUT_ERROR : Nat := 4

/-- Process exit code for unclassified errors. -/
def ExitCode.UNKNOWN_ERROR : Nat := 99

/-- `getExitCode(errorCode)` from `errors.js`. -/
def getExitCode (errorCode : Nat) : Nat :=
  if 100 ≤ errorCode ∧ errorCode < 200 then ExitCode.CONNECTION_ERROR
  else if 200 ≤ errorCode ∧ errorCode < 300 then ExitCode.CONFIG_ERROR
  else if 300 ≤ errorCode ∧ errorCode < 400 then ExitCode.QUERY_ERROR
  else if 400 ≤ errorCode ∧ errorCode < 500 then ExitCode.OUTPUT_ERROR
  else ExitCode.UNKNOWN_ERROR

/-- The `OracleMapError` class: classified error code, user-facing
message, and the `details` fields used by the connection/query handlers
(`details.oracleError` and `details.sql`; the remaining optional details
fields are not used by the code under verification). -/
structure OracleMapError where
  code : Nat
  message : String
  oracleError : Option String
  sqlText : Option String
deriving DecidableEq

/-!
Connection manager (`src/db/connection.js`): error classification for
pool/connection failures, and `getConnection` with its liveness probe.
-/

/-- `ConnectionManager.handleConnectionError(error)`: pattern-matches the
native error message and returns a classified `OracleMapError`. -/
def handleConnectionError (oraError : String) : OracleMapError :=
  if jsIncludes oraError "ORA-01017" || jsIncludes oraError "invalid username/password" then
    ⟨ErrorCode.AUTH_FAILED, "数据库认证失败，请检查用户名和密码", some oraError, none⟩
  else if jsIncludes oraError "ORA-12170" || jsIncludes oraError "TNS:Connect timeout" then
    ⟨ErrorCode.TIMEOUT, "连接超时，请检查网络或数据库服务状态", some oraError, none⟩
  else if jsIncludes oraError "ORA-12541" || jsIncludes oraError "TNS:no listener" then
    ⟨ErrorCode.CONNECTION_FAILED, "无法连接到数据库监听器", some oraError, none⟩
  else if jsIncludes oraError "ORA-12514"
      || jsIncludes oraError "TNS:listener does not currently know of service" then
    ⟨ErrorCode.CONNECTION_FAILED, "服务名不存在", some oraError, none⟩
  else
    ⟨ErrorCode.CONNECTION_FAILED, "数据库连接失败: " ++ oraError, some oraError, none⟩

/-- One native call observable in the `getConnection` trace.  Connections
are identified by numbers handed out by the driver model. -/
inductive PoolCall where
  | checkout
  | ping (conn : Nat)
  | closeConn (conn : Nat)
deriving DecidableEq

/-- Driver model for one `getConnection` run: the outcome of the first
`pool.getConnection()`, of the `SELECT 1 FROM DUAL` probe on a given
connection, of a best-effort `conn.close()`, and of the retry
`pool.getConnection()`.  Errors carry the native message. -/
structure PoolDriver where
  checkout1 : Except String Nat
  pingRes : Nat → Except String Unit
  closeRes : Nat → Except String Unit
  checkout2 : Except String Nat

/-- `ConnectionManager.getConnection()` with a health check, as a function
of the pool state and the driver outcomes, returning the classified
result together with the trace of native calls made.  The result of the
best-effort close is never consulted (`try { await conn.close() } catch
{}` in the source). -/
def getConnection (poolActive : Bool) (d : PoolDriver) :
    Except OracleMapError Nat × List PoolCall :=
  if !poolActive then
    (.error ⟨ErrorCode.CONNECTION_FAILED, "连接池未初始化，请先调用 createPool()",
      none, none⟩, [])
  else
    match d.checkout1 with
    | .error e => (.error (handleConnectionError e), [.checkout])
    | .ok conn =>
      match d.pingRes conn with
      | .ok _ => (.ok conn, [.checkout, .ping conn])
      | .error _ =>
        match d.checkout2 with
        | .ok conn2 =>
          (.ok conn2, [.checkout, .ping conn, .closeConn conn, .checkout])
        | .error e =>
          (.error (handleConnectionError e),
            [.checkout, .ping conn, .closeConn conn, .checkout])

/-!
SQL builder / read validator (`src/query/executor.js`, embedded in
`connection.js`'s module group): pagination clause construction and the
read-path statement validator.
-/

/-- Result record of `validateSql`. -/
structure SqlValidation where
  valid : Bool
  error : Option String
deriving DecidableEq

/-- The `dangerousKeywords` list of the read-path validator. -/
def dangerousKeywords : List String :=
  ["DROP", "DELETE", "UPDATE", "INSERT", "TRUNCATE", "ALTER", "CREATE"]

/-- `validateSql(sql)` from the query executor: read statements must
start with SELECT, and none of the dangerous keywords may occur as a
whitespace-delimited token anywhere in the original string. -/
def validateSql (sql : String) : SqlValidation :=
  if sql == "" then ⟨false, some "SQL 语句不能为空"⟩
  else
    let trimmedSql := jsUpper (jsTrim sql)
    if !jsStartsWith trimmedSql "SELECT" then ⟨false, some "只支持 SELECT 查询语句"⟩
    else
      match dangerousKeywords.find? (fun k => standaloneWs sql k) with
      | some keyword => ⟨false, some ("不允许使用 " ++ keyword ++ " 关键字")⟩
      | none => ⟨true, none⟩

/-- Strip one trailing semicolon after trimming, as in the head of
`buildPaginatedSql`. -/
def stripSemi (s : String) : String :=
  let sql := jsTrim s
  if jsEndsWith sql ";" then String.mk sql.data.dropLast else sql

/-- `buildPaginatedSql(baseSql, limit, offset)`: Oracle 12c OFFSET/FETCH
pagination.  JS `undefined` arguments are `none`. -/
def buildPaginatedSql (baseSql : String) (limit offset : Option Int) : String :=
  let sql := stripSemi baseSql
  let parts : List String :=
    match offset with
    | some o => if 0 < o then ["OFFSET " ++ toString o ++ " ROWS"] else []
    | none => []
  let parts : List String :=
    parts ++
      match limit with
      | some l =>
        if 0 < l then
          (if parts.isEmpty then ["OFFSET 0 ROWS"] else [])
            ++ ["FETCH NEXT " ++ toString l ++ " ROWS ONLY"]
        else []
      | none => []
  if parts.isEmpty then sql else sql ++ " " ++ joinSpace parts

example : buildPaginatedSql "SELECT * FROM EMPLOYEES" none (some 10)
    = "SELECT * FROM EMPLOYEES OFFSET 10 ROWS" := by decide
example : buildPaginatedSql "SELECT * FROM EMPLOYEES" (some 100) none
    = "SELECT * FROM EMPLOYEES OFFSET 0 ROWS FETCH NEXT 100 ROWS ONLY" := by decide
example : buildPaginatedSql "SELECT * FROM EMPLOYEES;" (some 10) none
    = "SELECT * FROM EMPLOYEES OFFSET 0 ROWS FETCH NEXT 10 ROWS ONLY" := by decide
example : buildPaginatedSql "SELECT * FROM EMPLOYEES" none (some 0)
    = "SELECT * FROM EMPLOYEES" := by decide
example : (validateSql "SELECT * FROM EMPLOYEES; DROP TABLE EMPLOYEES")
    = ⟨false, some "不允许使用 DROP 关键字"⟩ := by decide
example : (validateSql "select id, name from users").valid = true := by decide

/-!
Result mapper (`src/mapper/data.js`, embedded in `schema.js`'s module
group): value normalization, LOB truncation, and row mapping.
-/

/-- A JS value as it can appear in a driver row or a normalized row.  A
valid `Date` object carries its ISO-8601 rendering (`toISOString`), which
is all the mapper observes of it; a `Buffer` carries its byte list. -/
inductive JsValue where
  | vnull
  | vundefined
  | vstr (s : String)
  | vnum (n : Int)
  | vbool (b : Bool)
  | vdate (iso : String)
  | vbuf (bytes : List Nat)
deriving DecidableEq

/-- The base64 alphabet. -/
def base64Chars : List Char :=
  "ABCDEFGHIJKLMNOPQRSTUVWXYZabcdefghijklmnopqrstuvwxyz0123456789+/".data

/-- The base64 digit for a 6-bit value. -/
def b64c (n : Nat) : Char :=
  base64Chars.getD n 'A'

/-- Standard base64 encoding of a byte list (`Buffer.toString('base64')`). -/
def base64Encode : List Nat → List Char
  | [] => []
  | [b1] => [b64c (b1 / 4), b64c (b1 % 4 * 16), '=', '=']
  | [b1, b2] => [b64c (b1 / 4), b64c (b1 % 4 * 16 + b2 / 16), b64c (b2 % 16 * 4), '=']
  | b1 :: b2 :: b3 :: rest =>
    b64c (b1 / 4) :: b64c (b1 % 4 * 16 + b2 / 16) :: b64c (b2 % 16 * 4 + b3 / 64)
      :: b64c (b3 % 64) :: base64Encode rest

/-- Base64 encoding as a string. -/
def base64EncodeStr (bytes : List Nat) : String :=
  String.mk (base64Encode bytes)

/-- `LOB_CONFIG.CLOB_MAX_LENGTH` from `data.js`. -/
def CLOB_MAX : Nat := 4000

/-- `LOB_CONFIG.BLOB_MAX_LENGTH` from `data.js`. -/
def BLOB_MAX : Nat := 1024

/-- `LOB_CONFIG.TRUNCATE_SUFFIX`: the visible truncation marker. -/
def TRUNCATE_SUFFIX : String := "... [已截断]"

/-- `truncateString(str, maxLength)` from `data.js`. -/
def truncateString (str : String) (maxLength : Nat) : String :=
  if jsLength str ≤ maxLength then str
  else jsTake str maxLength ++ TRUNCATE_SUFFIX

/-- The CLOB-like native types of `mapValue`'s long-text branch. -/
def clobTypes : List String := ["CLOB", "NCLOB", "LONG"]

/-- The binary native types of `mapValue`'s string-encoded-binary branch. -/
def rawTypes : List String := ["BLOB", "RAW", "LONG RAW"]

/-- `mapValue(value, oracleType)` from `data.js`.  The branch structure
follows the source: null/undefined first, then the Date branch (only for
Date values under a DATE/TIMESTAMP-prefixed type), the CLOB string
branch, the Buffer branch, the string-encoded binary branch, and the
plain oversized-string branch; everything else passes through. -/
def mapValue (value : JsValue) (oracleType : String) : JsValue :=
  let upperType := jsUpper oracleType
  match value with
  | .vnull => .vnull
  | .vundefined => .vnull
  | .vdate iso =>
    if jsStartsWith upperType "DATE" || jsStartsWith upperType "TIMESTAMP" then
      .vstr iso
    else .vdate iso
  | .vstr s =>
    if clobTypes.contains upperType then .vstr (truncateString s CLOB_MAX)
    else if rawTypes.contains upperType && BLOB_MAX * 2 < jsLength s then
      .vstr (jsTake s (BLOB_MAX * 2) ++ TRUNCATE_SUFFIX)
    else if CLOB_MAX < jsLength s then .vstr (truncateString s CLOB_MAX)
    else .vstr s
  | .vbuf bytes =>
    if BLOB_MAX < bytes.length then
      .vstr (base64EncodeStr (bytes.take BLOB_MAX) ++ TRUNCATE_SUFFIX)
    else .vstr (base64EncodeStr bytes)
  | v => v

/-- Column metadata as consumed by `mapRow` (`column.name` and
`column.oracleType || column.dbType || ''` resolved). -/
structure ColumnInfo where
  name : String
  oracleType : String
deriving DecidableEq

/-- A driver row: object format (`OUT_FORMAT_OBJECT`) or array format. -/
inductive JsRow where
  | obj (fields : List (String × JsValue))
  | arr (cells : List JsValue)

/-- Property read on a JS object modelled as an assignment list in
assignment order: the last assignment to a key wins; a missing key reads
as `undefined` (`none` here distinguishes the absent key). -/
def objGetOpt (o : List (String × JsValue)) (k : String) : Option JsValue :=
  (o.reverse.find? (fun p => p.1 == k)).map (fun p => p.2)

/-- `row[columnName]` on an object row: absent keys read as `undefined`. -/
def jsGet (o : List (String × JsValue)) (k : String) : JsValue :=
  (objGetOpt o k).getD .vundefined

/-- `mapRow(row, columns)` from `data.js`: produce the normalized row as
the list of `result[columnName] = mapValue(...)` assignments, one per
column descriptor; an array row is indexed positionally and a missing
index reads as `undefined`. -/
def mapRow (row : JsRow) (columns : List ColumnInfo) : List (String × JsValue) :=
  match row with
  | .obj fields =>
    columns.map (fun c => (c.name, mapValue (jsGet fields c.name) c.oracleType))
  | .arr cells =>
    columns.enum.map
      (fun ic => (ic.2.name, mapValue (cells.getD ic.1 .vundefined) ic.2.oracleType))

example : mapValue (.vstr "abc") "CLOB" = .vstr "abc" := by decide
example : mapValue .vundefined "NUMBER" = .vnull := by decide
example : mapValue (.vbuf [0, 0]) "BLOB" = .vstr "AAA=" := by decide
example : jsGet [("A", .vnum 3)] "B" = .vundefined := by rfl

/-!
DML execution engine (`executeDml`, `insertRecord`, `handleDmlError`
from the query executor module).
-/

/-- `handleDmlError(error, sql)`: classify a native DML error message. -/
def handleDmlError (oraError sql : String) : OracleMapError :=
  if jsIncludes oraError "ORA-00942" then
    ⟨ErrorCode.TABLE_NOT_FOUND, "表或视图不存在", some oraError, some sql⟩
  else if jsIncludes oraError "ORA-00904" then
    ⟨ErrorCode.SQL_SYNTAX_ERROR, "无效的列名或标识符", some oraError, some sql⟩
  else if jsIncludes oraError "ORA-01400" then
    ⟨ErrorCode.SQL_SYNTAX_ERROR, "必填字段不能为空", some oraError, some sql⟩
  else if jsIncludes oraError "ORA-00001" then
    ⟨ErrorCode.SQL_SYNTAX_ERROR, "违反唯一约束，数据已存在", some oraError, some sql⟩
  else if jsIncludes oraError "ORA-02291" then
    ⟨ErrorCode.SQL_SYNTAX_ERROR, "违反外键约束，引用的数据不存在", some oraError, some sql⟩
  else
    ⟨ErrorCode.QUERY_EXECUTION_ERROR, "DML 执行失败: " ++ oraError,
      some oraError, some sql⟩

/-- One `conn.execute` call observable in a DML trace, with the
`autoCommit` option when one was passed (`none` when the options object
carried no `autoCommit`, as for the bare `COMMIT`/`ROLLBACK` calls). -/
structure DbCall where
  sql : String
  autoCommit : Option Bool
deriving DecidableEq

/-- Driver model for one `executeDml` run: the outcome of the DML
statement itself (`rowsAffected` on success, native message on error),
of the explicit `COMMIT`, and of the explicit `ROLLBACK`. -/
structure DmlDriver where
  execRes : Except String Nat
  commitRes : Except String Unit
  rollbackRes : Except String Unit

/-- Success payload of `executeDml` (the wall-clock `executionTime` field
is not modelled). -/
structure DmlOutcome where
  verb : Option String
  rowsAffected : Nat
  sql : String
deriving DecidableEq

/-- `executeDml(conn, sql)` as a function of the driver outcomes,
returning the classified result and the trace of `conn.execute` calls.
The DML statement runs with `autoCommit: false`; an explicit `COMMIT`
follows on success; any execution error triggers an explicit `ROLLBACK`
whose own outcome is swallowed (`try { ... } catch {}`), and the
classified execution error is thrown. -/
def executeDml (d : DmlDriver) (sql : String) :
    Except OracleMapError DmlOutcome × List DbCall :=
  let validation := validateDmlSql sql
  if !validation.valid then
    (.error ⟨ErrorCode.SQL_SYNTAX_ERROR, validation.error.getD "", none, none⟩, [])
  else
    match d.execRes with
    | .error e =>
      (.error (handleDmlError e sql),
        [⟨sql, some false⟩, ⟨"ROLLBACK", none⟩])
    | .ok rowsAffected =>
      match d.commitRes with
      | .error e =>
        (.error (handleDmlError e sql),
          [⟨sql, some false⟩, ⟨"COMMIT", none⟩, ⟨"ROLLBACK", none⟩])
      | .ok _ =>
        (.ok ⟨validation.verb, rowsAffected, sql⟩,
          [⟨sql, some false⟩, ⟨"COMMIT", none⟩])

/-- `SQL_EXPRESSION_MARKERS` from the query executor. -/
def SQL_EXPRESSION_MARKERS : List String :=
  ["SYSDATE", "SYSTIMESTAMP", "NULL", "CURRENT_DATE", "CURRENT_TIMESTAMP"]

/-- A value supplied to `insertRecord` in the `data` object: primitives,
the tagged objects the code recognises, or another plain object (carried
as its `JSON.stringify` rendering). -/
inductive InsertValue where
  | inull
  | iundefined
  | istr (s : String)
  | inum (n : Int)
  | ibool (b : Bool)
  | idateObj (d : String)
  | iexprObj (e : String)
  | itsObj (t : String)
  | iobj (json : String)
deriving DecidableEq

/-- A bind value handed to the driver (a `Date` carries the string it was
constructed from). -/
inductive BindVal where
  | bnull
  | bstr (s : String)
  | bnum (n : Int)
  | bbool (b : Bool)
  | bdate (d : String)
deriving DecidableEq

/-- Result record of `processInsertValue`. -/
structure ProcessedValue where
  value : BindVal
  isExpr : Bool
  expression : Option String
deriving DecidableEq

/-- `processInsertValue(value, columnName)`: split a supplied value into
a bind value or a whitelisted SQL expression; an unsupported `$expr`
throws. -/
def processInsertValue (v : InsertValue) : Except OracleMapError ProcessedValue :=
  match v with
  | .inull => .ok ⟨.bnull, false, none⟩
  | .iundefined => .ok ⟨.bnull, false, none⟩
  | .istr s =>
    let upperValue := jsUpper (jsTrim s)
    if SQL_EXPRESSION_MARKERS.contains upperValue then
      .ok ⟨.bnull, true, some upperValue⟩
    else .ok ⟨.bstr s, false, none⟩
  | .idateObj d => .ok ⟨.bdate d, false, none⟩
  | .iexprObj e =>
    let expr := jsUpper (jsTrim e)
    if SQL_EXPRESSION_MARKERS.contains expr then
      .ok ⟨.bnull, true, some expr⟩
    else
      .error ⟨ErrorCode.SQL_SYNTAX_ERROR,
        "不支持的 SQL 表达式: " ++ e ++ "，允许的表达式: "
          ++ joinComma SQL_EXPRESSION_MARKERS, none, none⟩
  | .itsObj t => .ok ⟨.bdate t, false, none⟩
  | .iobj json => .ok ⟨.bstr json, false, none⟩
  | .inum n => .ok ⟨.bnum n, false, none⟩
  | .ibool b => .ok ⟨.bbool b, false, none⟩

/-- Process every column value of the `data` object in order, stopping at
the first error, as the `for ... of` loop in `insertRecord` does. -/
def processAll : List (String × InsertValue) →
    Except OracleMapError (List (String × ProcessedValue))
  | [] => .ok []
  | (col, v) :: rest =>
    match processInsertValue v with
    | .error e => .error e
    | .ok p =>
      match processAll rest with
      | .error e => .error e
      | .ok ps => .ok ((col, p) :: ps)

/-- The INSERT statement `insertRecord` builds from the processed data. -/
def insertSql (tableName : String) (processed : List (String × ProcessedValue)) :
    String :=
  let columns := processed.map (fun p => p.1)
  let placeholders := processed.map
    (fun p => if p.2.isExpr then p.2.expression.getD "" else ":" ++ p.1)
  "INSERT INTO " ++ jsUpper tableName ++ " (" ++ joinComma columns
    ++ ") VALUES (" ++ joinComma placeholders ++ ")"

/-- Success payload of `insertRecord` (without `executionTime`). -/
structure InsertOutcome where
  table : String
  rowsAffected : Nat
  columns : List String
  sql : String
deriving DecidableEq

/-- `insertRecord(conn, tableName, data)` as a function of the whitelist
environment variable, the structured data (an object, modelled as its
key/value list), and the driver outcome of the single INSERT execution,
returning the classified result and the trace of `conn.execute` calls.
The INSERT runs with `autoCommit: true` and is the only native call on
both the success and the error path. -/
def insertRecord (env : Option String) (tableName : String)
    (data : List (String × InsertValue)) (execRes : Except String Nat) :
    Except OracleMapError InsertOutcome × List DbCall :=
  let access := checkTableAccess env tableName
  if !access.allowed then
    (.error ⟨ErrorCode.ACCESS_DENIED, access.message.getD "", none, none⟩, [])
  else if data.isEmpty then
    (.error ⟨ErrorCode.SQL_SYNTAX_ERROR, "data 对象不能为空", none, none⟩, [])
  else
    match processAll data with
    | .error e => (.error e, [])
    | .ok processed =>
      let sql := insertSql tableName processed
      match execRes with
      | .ok rowsAffected =>
        (.ok ⟨jsUpper tableName, rowsAffected, data.map (fun p => p.1), sql⟩,
          [⟨sql, some true⟩])
      | .error e =>
        (.error (handleDmlError e sql), [⟨sql, some true⟩])

example :
    (insertRecord none "t" [("A", .inum 1), ("B", .istr "sysdate")] (.ok 1)).2
      = [⟨"INSERT INTO T (A, B) VALUES (:A, SYSDATE)", some true⟩] := by
  decide

/-!
Concrete inputs used by witnesses and counterexamples.
-/

/-- A 5000-character string, exceeding the CLOB threshold. -/
def bigStr : String := String.mk (List.replicate 5000 'a')

/-- A driver behavior whose first connection fails its probe and whose
retry checkout succeeds with a different connection. -/
def stalePoolDriver : PoolDriver :=
  ⟨.ok 1, fun _ => .error "ORA-03113: end-of-file on communication channel",
    fun _ => .ok (), .ok 2⟩

/-- A driver behavior whose first connection fails its probe and whose
retry checkout also fails. -/
def deadPoolDriver : PoolDriver :=
  ⟨.ok 1, fun _ => .error "ORA-03113: end-of-file on communication channel",
    fun _ => .error "close failed", .error "ORA-12541: TNS:no listener"⟩

/-- A DML driver whose statement execution fails with a unique-constraint
violation. -/
def failingDmlDriver : DmlDriver :=
  ⟨.error "ORA-00001: unique constraint violated", .ok (), .ok ()⟩

/-!
Helper lemmas.
-/

/-- A `find?` over a list whose entries with key `k` all carry the value
`v` returns `v`'s entry when the key occurs. -/
theorem find?_map_eq_of_const (l : List (String × JsValue)) (k : String)
    (v : JsValue) (hall : ∀ p ∈ l, p.1 = k → p.2 = v)
    (hmem : ∃ p ∈ l, p.1 = k) :
    (l.find? (fun p => p.1 == k)).map (fun p => p.2) = some v := by
  induction l with
  | nil => simp at hmem
  | cons h t ih =>
    by_cases hk : h.1 = k
    · rw [List.find?_cons_of_pos _ (by simp [hk])]
      simp [hall h (by simp) hk]
    · rw [List.find?_cons_of_neg _ (by simp [hk])]
      refine ih (fun p hp hpk => hall p (by simp [hp]) hpk) ?_
      rcases hmem with ⟨p, hp, hpk⟩
      rcases List.mem_cons.mp hp with rfl | hpt
      · exact absurd hpk hk
      · exact ⟨p, hpt, hpk⟩

/-- Last-wins object lookup on an assignment list whose entries with key
`k` all carry the value `v`. -/
theorem objGetOpt_eq_of_const (l : List (String × JsValue)) (k : String)
    (v : JsValue) (hall : ∀ p ∈ l, p.1 = k → p.2 = v)
    (hmem : ∃ p ∈ l, p.1 = k) :
    objGetOpt l k = some v := by
  unfold objGetOpt
  refine find?_map_eq_of_const _ _ _ ?_ ?_
  · intro p hp hpk
    exact hall p (List.mem_reverse.mp hp) hpk
  · rcases hmem with ⟨p, hp, hpk⟩
    exact ⟨p, List.mem_reverse.mpr hp, hpk⟩

/-- `mapValue` sends both SQL NULL representations to `null`, whatever
the column type. -/
theorem mapValue_null (t : String) :
    mapValue .vnull t = .vnull ∧ mapValue .vundefined t = .vnull := by
  constructor <;> rfl

/-- A string starting (case-insensitively) with UPDATE does not start
with INSERT. -/
theorem startsWith_update_not_insert (s : String)
    (h : jsStartsWith s "UPDATE" = true) : jsStartsWith s "INSERT" = false := by
  unfold jsStartsWith at h ⊢
  cases hd : s.data with
  | nil => rw [hd] at h; exact absurd h (by decide)
  | cons c cs =>
    rw [hd] at h
    rw [show "UPDATE".data = 'U' :: "PDATE".data from rfl] at h
    rw [show "INSERT".data = 'I' :: "NSERT".data from rfl]
    simp only [List.isPrefixOf] at h ⊢
    simp only [Bool.and_eq_true, beq_iff_eq] at h
    have hc : c = 'U' := h.1.symm
    subst hc
    simp

/-- `handleConnectionError` only produces connection-class codes. -/
theorem handleConnectionError_code_mem (e : String) :
    (handleConnectionError e).code = ErrorCode.CONNECTION_FAILED ∨
    (handleConnectionError e).code = ErrorCode.AUTH_FAILED ∨
    (handleConnectionError e).code = ErrorCode.TIMEOUT := by
  unfold handleConnectionError
  split_ifs <;> simp [ErrorCode.CONNECTION_FAILED, ErrorCode.AUTH_FAILED,
    ErrorCode.TIMEOUT]

/-!
Claims.
-/

/-- Claim C2: for every requested row limit (absent, zero, negative, or
above the ceiling) and default, `enforceRowLimit` matches the spec
formulas `min(defaultLimit, maxRows)` when the request is absent and
`min(max(1, requested), maxRows)` otherwise, equals
`clamp(R-or-default, 1, maxRows)` at the source's default limit of 100,
and — for any positive default — always lands in `[1, 1000]`.  The
function is total, so it never throws. -/
theorem claim_C2 (R : Option Int) (d : Int) :
    (R = none → enforceRowLimit R d = min d 1000) ∧
    (∀ r : Int, R = some r → enforceRowLimit R d = min (max 1 r) 1000) ∧
    enforceRowLimit R 100 = min (max 1 (R.getD 100)) 1000 ∧
    (1 ≤ d → 1 ≤ enforceRowLimit R d ∧ enforceRowLimit R d ≤ 1000) := by
  unfold enforceRowLimit MAX_ROWS_LIMIT
  rcases R with _ | r <;>
    simp [Option.getD] <;>
    constructor <;>
    simp [Int.min_def, Int.max_def] <;>
    split_ifs <;>
    omega

/-- Claim C2 witness: a negative request is clamped to 1 and the bounds
hold. -/
theorem claim_C2_witness :
    (some (-5) : Option Int) = some (-5) ∧ (1 : Int) ≤ 100 ∧
    enforceRowLimit (some (-5)) 100 = min (max 1 (-5)) 1000 ∧
    1 ≤ enforceRowLimit (some (-5)) 100 ∧ enforceRowLimit (some (-5)) 100 ≤ 1000 :=
  ⟨rfl, by norm_num,
    (claim_C2 (some (-5)) 100).2.1 (-5) rfl,
    ((claim_C2 (some (-5)) 100).2.2.2 (by norm_num)).1,
    ((claim_C2 (some (-5)) 100).2.2.2 (by norm_num)).2⟩

/-- Claim C9: any native error message containing "ORA-01017" classifies
to the authentication-failure kind (`AUTH_FAILED = 102`), and
`getExitCode` maps that kind to the connection exit code, which differs
from the configuration, query, output, and unknown exit codes. -/
theorem claim_C9 (msg : String) (h : jsIncludes msg "ORA-01017" = true) :
    handleConnectionError msg
      = ⟨ErrorCode.AUTH_FAILED, "数据库认证失败，请检查用户名和密码", some msg, none⟩ ∧
    (handleConnectionError msg).code = 102 ∧
    getExitCode (handleConnectionError msg).code = ExitCode.CONNECTION_ERROR ∧
    ExitCode.CONNECTION_ERROR ≠ ExitCode.CONFIG_ERROR ∧
    ExitCode.CONNECTION_ERROR ≠ ExitCode.QUERY_ERROR ∧
    ExitCode.CONNECTION_ERROR ≠ ExitCode.OUTPUT_ERROR ∧
    ExitCode.CONNECTION_ERROR ≠ ExitCode.UNKNOWN_ERROR := by
  unfold handleConnectionError
  rw [h]
  refine ⟨by simp, ?_, ?_, by decide, by decide, by decide, by decide⟩
  · simp [ErrorCode.AUTH_FAILED]
  · simp
    decide

/-- Claim C9 witness: the standard invalid-credentials message. -/
theorem claim_C9_witness :
    jsIncludes "ORA-01017: invalid username/password; logon denied" "ORA-01017"
      = true ∧
    (handleConnectionError "ORA-01017: invalid username/password; logon denied").code
      = 102 :=
  ⟨by decide,
    (claim_C9 "ORA-01017: invalid username/password; logon denied" (by decide)).2.1⟩

/-- Claim C10: a whitelist environment variable that is non-empty but
contains no identifiers after comma-splitting (such as ",,") yields the
empty whitelist set, not the disabled-whitelist `null`, and
`checkTableAccess` then denies every table name. -/
theorem claim_C10 :
    getTableWhitelist (some ",,") = some [] ∧
    ∀ t : String, (checkTableAccess (some ",,") t).allowed = false := by
  have hw : getTableWhitelist (some ",,") = some [] := by decide
  refine ⟨hw, fun t => ?_⟩
  unfold checkTableAccess
  rw [hw]
  simp [List.contains]

/-- Claim C5: `buildPaginatedSql` strips a single trailing semicolon
from the (trimmed) base SQL, appends an OFFSET clause only for a
positive offset, appends a FETCH clause only for a positive limit
(first emitting `OFFSET 0 ROWS` when no offset clause was emitted), and
appends nothing when both are absent or non-positive; on
`("SELECT * FROM T", 100, 50)` it produces exactly the specified
statement. -/
theorem claim_C5 (base : String) (l o : Int) :
    buildPaginatedSql base none none = stripSemi base ∧
    (o ≤ 0 → buildPaginatedSql base none (some o) = stripSemi base) ∧
    (l ≤ 0 → o ≤ 0 → buildPaginatedSql base (some l) (some o) = stripSemi base) ∧
    (0 < o → buildPaginatedSql base none (some o)
      = stripSemi base ++ " " ++ ("OFFSET " ++ toString o ++ " ROWS")) ∧
    (0 < o → 0 < l → buildPaginatedSql base (some l) (some o)
      = stripSemi base ++ " "
        ++ ("OFFSET " ++ toString o ++ " ROWS" ++ " "
          ++ ("FETCH NEXT " ++ toString l ++ " ROWS ONLY"))) ∧
    (0 < l → buildPaginatedSql base (some l) none
      = stripSemi base ++ " "
        ++ ("OFFSET 0 ROWS" ++ " " ++ ("FETCH NEXT " ++ toString l ++ " ROWS ONLY"))) ∧
    (o ≤ 0 → 0 < l → buildPaginatedSql base (some l) (some o)
      = stripSemi base ++ " "
        ++ ("OFFSET 0 ROWS" ++ " " ++ ("FETCH NEXT " ++ toString l ++ " ROWS ONLY"))) ∧
    buildPaginatedSql "SELECT * FROM T" (some 100) (some 50)
      = "SELECT * FROM T OFFSET 50 ROWS FETCH NEXT 100 ROWS ONLY" := by
  refine ⟨rfl, ?_, ?_, ?_, ?_, ?_, ?_, by decide⟩
  · intro ho
    simp [buildPaginatedSql, if_neg (not_lt.mpr ho)]
  · intro hl ho
    simp [buildPaginatedSql, if_neg (not_lt.mpr ho), if_neg (not_lt.mpr hl)]
  · intro ho
    simp [buildPaginatedSql, if_pos ho, joinSpace]
  · intro ho hl
    simp [buildPaginatedSql, if_pos ho, if_pos hl, joinSpace]
  · intro hl
    simp [buildPaginatedSql, if_pos hl, joinSpace]
  · intro ho hl
    simp [buildPaginatedSql, if_neg (not_lt.mpr ho), if_pos hl, joinSpace]

/-- Claim C5 witness: the pagination scenario with both limit and
offset positive. -/
theorem claim_C5_witness :
    (0 : Int) < 50 ∧ (0 : Int) < 100 ∧
    buildPaginatedSql "SELECT * FROM T" (some 100) (some 50)
      = stripSemi "SELECT * FROM T" ++ " "
        ++ ("OFFSET " ++ toString (50 : Int) ++ " ROWS" ++ " "
          ++ ("FETCH NEXT " ++ toString (100 : Int) ++ " ROWS ONLY")) :=
  ⟨by norm_num, by norm_num,
    (claim_C5 "SELECT * FROM T" 100 50).2.2.2.2.1 (by norm_num) (by norm_num)⟩

/-- Claim C6: values exceeding their configured threshold are truncated
with the visible marker and values at or below it keep their content: a
string under a CLOB-like type, or a plain string, longer than 4000
characters becomes exactly its first 4000 characters plus the marker
(and is returned unchanged at or below 4000); a Buffer longer than 1024
bytes is cut to its first 1024 bytes before base64 encoding with the
marker appended after encoding (and is base64-encoded whole, unmarked,
at or below 1024 bytes).  The last conjunct is scenario D: a
5000-character CLOB maps to exactly 4000 characters plus the marker. -/
theorem claim_C6 (s : String) (b : List Nat) (t : String) :
    (CLOB_MAX < jsLength s →
      mapValue (.vstr s) "CLOB" = .vstr (jsTake s CLOB_MAX ++ TRUNCATE_SUFFIX)) ∧
    (jsLength s ≤ CLOB_MAX → mapValue (.vstr s) "CLOB" = .vstr s) ∧
    (CLOB_MAX < jsLength s →
      mapValue (.vstr s) "VARCHAR2" = .vstr (jsTake s CLOB_MAX ++ TRUNCATE_SUFFIX)) ∧
    (jsLength s ≤ CLOB_MAX → mapValue (.vstr s) "VARCHAR2" = .vstr s) ∧
    (BLOB_MAX < b.length →
      mapValue (.vbuf b) t
        = .vstr (base64EncodeStr (b.take BLOB_MAX) ++ TRUNCATE_SUFFIX)) ∧
    (b.length ≤ BLOB_MAX → mapValue (.vbuf b) t = .vstr (base64EncodeStr b)) ∧
    (jsLength s = 5000 →
      jsLength (jsTake s CLOB_MAX) = CLOB_MAX ∧
      mapValue (.vstr s) "CLOB" = .vstr (jsTake s CLOB_MAX ++ TRUNCATE_SUFFIX)) := by
  have hclob : jsUpper "CLOB" ∈ clobTypes := by decide
  have hvc : jsUpper "VARCHAR2" ∉ clobTypes := by decide
  have hvr : jsUpper "VARCHAR2" ∉ rawTypes := by decide
  refine ⟨?_, ?_, ?_, ?_, ?_, ?_, ?_⟩
  · intro h
    simp [mapValue, hclob, truncateString, if_neg (not_le.mpr h)]
  · intro h
    simp [mapValue, hclob, truncateString, if_pos h]
  · intro h
    simp [mapValue, hvc, hvr, truncateString, if_pos h, if_neg (not_le.mpr h)]
  · intro h
    simp [mapValue, hvc, hvr, truncateString, if_neg (not_lt.mpr h)]
  · intro h
    simp [mapValue, if_pos h]
  · intro h
    simp [mapValue, if_neg (not_lt.mpr h)]
  · intro h
    constructor
    · simp [jsLength, jsTake, CLOB_MAX] at h ⊢
      omega
    · have hlt : CLOB_MAX < jsLength s := by
        rw [h]; decide
      simp [mapValue, hclob, truncateString, if_neg (not_le.mpr hlt)]

/-- Claim C6 witness: the 5000-character CLOB of scenario D and a small
Buffer. -/
theorem claim_C6_witness :
    jsLength bigStr = 5000 ∧
    jsLength (jsTake bigStr CLOB_MAX) = CLOB_MAX ∧
    mapValue (.vstr bigStr) "CLOB" = .vstr (jsTake bigStr CLOB_MAX ++ TRUNCATE_SUFFIX) ∧
    ([0, 1, 2] : List Nat).length ≤ BLOB_MAX ∧
    mapValue (.vbuf [0, 1, 2]) "BLOB" = .vstr (base64EncodeStr [0, 1, 2]) := by
  have hlen : jsLength bigStr = 5000 := by
    show (List.replicate 5000 'a').length = 5000
    exact List.length_replicate 5000 'a'
  refine ⟨hlen,
    ((claim_C6 bigStr [0, 1, 2] "BLOB").2.2.2.2.2.2 hlen).1,
    ((claim_C6 bigStr [0, 1, 2] "BLOB").2.2.2.2.2.2 hlen).2,
    by decide,
    (claim_C6 bigStr [0, 1, 2] "BLOB").2.2.2.2.2.1 (by decide)⟩

/-- Claim C7: whenever a cell's driver value is SQL NULL — the key holds
`null`, holds `undefined`, or is absent from an object-format row, or
the positional cell is `null`/missing in an array-format row whose
column names are distinct — the normalized row produced by `mapRow` has
that column's key present and bound to `null` (so never `undefined`,
never an absent key, never the empty string). -/
theorem claim_C7 (fields : List (String × JsValue)) (cells : List JsValue)
    (columns : List ColumnInfo) (c : ColumnInfo) (i : Nat) :
    (c ∈ columns →
      (objGetOpt fields c.name = none ∨ objGetOpt fields c.name = some .vnull
        ∨ objGetOpt fields c.name = some .vundefined) →
      objGetOpt (mapRow (.obj fields) columns) c.name = some .vnull) ∧
    ((columns.map ColumnInfo.name).Nodup →
      columns.get? i = some c →
      (cells.getD i .vundefined = .vnull ∨ cells.getD i .vundefined = .vundefined) →
      objGetOpt (mapRow (.arr cells) columns) c.name = some .vnull) := by
  constructor
  · intro hc hnull
    have hval : jsGet fields c.name = .vnull ∨ jsGet fields c.name = .vundefined := by
      unfold jsGet
      rcases hnull with h | h | h <;> rw [h] <;> simp
    refine objGetOpt_eq_of_const _ _ _ ?_ ?_
    · intro p hp hpk
      simp only [mapRow, List.mem_map] at hp
      rcases hp with ⟨c2, hc2, rfl⟩
      simp only at hpk
      rw [hpk]
      rcases hval with h | h <;> rw [h]
      · exact (mapValue_null c2.oracleType).1
      · exact (mapValue_null c2.oracleType).2
    · refine ⟨(c.name, mapValue (jsGet fields c.name) c.oracleType), ?_, rfl⟩
      simp only [mapRow, List.mem_map]
      exact ⟨c, hc, rfl⟩
  · intro hnodup hget hnull
    have hi : i < columns.length := by
      by_contra hge
      rw [List.get?_eq_none.mpr (le_of_not_lt hge)] at hget
      exact Option.noConfusion hget
    refine objGetOpt_eq_of_const _ _ _ ?_ ?_
    · intro p hp hpk
      simp only [mapRow, List.mem_map] at hp
      rcases hp with ⟨⟨j, c2⟩, hc2, rfl⟩
      simp only at hpk
      have hj : columns.get? j = some c2 := by
        have := List.mem_enum_iff_get?.mp hc2
        exact this
      have hij : i = j := by
        have hmapij : (columns.map ColumnInfo.name).get? i
            = (columns.map ColumnInfo.name).get? j := by
          rw [List.get?_map, List.get?_map, hget, hj]
          simp [hpk]
        exact List.get?_inj (by rw [List.length_map]; exact hi) hnodup hmapij
      subst hij
      rw [hj] at hget
      have hc2c : c2 = c := by
        injection hget
      subst hc2c
      rcases hnull with h | h <;> rw [h]
      · exact (mapValue_null c2.oracleType).1
      · exact (mapValue_null c2.oracleType).2
    · refine ⟨(c.name, mapValue (cells.getD i .vundefined) c.oracleType), ?_, rfl⟩
      simp only [mapRow, List.mem_map]
      refine ⟨(i, c), List.mem_enum_iff_get?.mpr hget, rfl⟩

/-- Claim C7 witness: an object row with one null cell and one absent
key, and an array row with a missing cell. -/
theorem claim_C7_witness :
    objGetOpt [("A", JsValue.vnull)] "A" = some JsValue.vnull ∧
    objGetOpt (mapRow (.obj [("A", JsValue.vnull)])
      [⟨"A", "VARCHAR2"⟩, ⟨"B", "NUMBER"⟩]) "A" = some JsValue.vnull ∧
    objGetOpt (mapRow (.obj [("A", JsValue.vnull)])
      [⟨"A", "VARCHAR2"⟩, ⟨"B", "NUMBER"⟩]) "B" = some JsValue.vnull ∧
    objGetOpt (mapRow (.arr []) [⟨"A", "VARCHAR2"⟩]) "A" = some JsValue.vnull :=
  ⟨by decide,
    (claim_C7 [("A", JsValue.vnull)] [] [⟨"A", "VARCHAR2"⟩, ⟨"B", "NUMBER"⟩]
      ⟨"A", "VARCHAR2"⟩ 0).1 (by decide) (by decide),
    (claim_C7 [("A", JsValue.vnull)] [] [⟨"A", "VARCHAR2"⟩, ⟨"B", "NUMBER"⟩]
      ⟨"B", "NUMBER"⟩ 0).1 (by decide) (by decide),
    (claim_C7 [] [] [⟨"A", "VARCHAR2"⟩] ⟨"A", "VARCHAR2"⟩ 0).2 (by decide)
      (by decide) (by decide)⟩

/-- Claim C1 counterexample: `"DROP TABLE T"` contains DROP as a
standalone token, and `validateSql` does reject it, but with the generic
SELECT-only message that does not name the keyword — refuting the claim
that the error message always names the keyword. -/
theorem claim_C1_cex :
    standaloneWs "DROP TABLE T" "DROP" = true ∧
    "DROP" ∈ dangerousKeywords ∧
    validateSql "DROP TABLE T" = ⟨false, some "只支持 SELECT 查询语句"⟩ ∧
    jsIncludes "只支持 SELECT 查询语句" "DROP" = false := by
  decide

/-- Claim C1 (amended): every SQL string containing one of the dangerous
keywords as a standalone whitespace-delimited token is rejected
(`valid = false`); when the statement additionally starts with SELECT
(case-insensitively, after trimming), the error message names a
dangerous keyword that occurs standalone in the statement (the first in
the fixed check order); and a keyword occurring only inside a longer
identifier such as `DELETED_FLAG` is not rejected on that ground. -/
theorem claim_C1 (sql kw : String) (hkw : kw ∈ dangerousKeywords)
    (hstand : standaloneWs sql kw = true) :
    (validateSql sql).valid = false ∧
    (jsStartsWith (jsUpper (jsTrim sql)) "SELECT" = true →
      ∃ k, k ∈ dangerousKeywords ∧ standaloneWs sql k = true ∧
        (validateSql sql).error = some ("不允许使用 " ++ k ++ " 关键字")) ∧
    validateSql "SELECT DELETED_FLAG FROM T1" = ⟨true, none⟩ := by
  have hne : sql ≠ "" := by
    rintro rfl
    simp only [dangerousKeywords, List.mem_cons, List.not_mem_nil, or_false] at hkw
    rcases hkw with rfl | rfl | rfl | rfl | rfl | rfl | rfl <;>
      exact absurd hstand (by decide)
  refine ⟨?_, ?_, by decide⟩
  · unfold validateSql
    rw [if_neg (by simpa using hne)]
    by_cases hsel : jsStartsWith (jsUpper (jsTrim sql)) "SELECT" = true
    · simp only [hsel, Bool.not_true, Bool.false_eq_true, if_false]
      cases hfind : dangerousKeywords.find? (fun k => standaloneWs sql k) with
      | none =>
        exact absurd hstand (by
          simpa using List.find?_eq_none.mp hfind kw hkw)
      | some k => rfl
    · rw [if_pos (by simpa using hsel)]
  · intro hsel
    unfold validateSql
    rw [if_neg (by simpa using hne)]
    simp only [hsel, Bool.not_true, Bool.false_eq_true, if_false]
    cases hfind : dangerousKeywords.find? (fun k => standaloneWs sql k) with
    | none =>
      exact absurd hstand (by
        simpa using List.find?_eq_none.mp hfind kw hkw)
    | some k =>
      exact ⟨k, List.mem_of_find?_eq_some hfind,
        by simpa using List.find?_some hfind, rfl⟩

/-- Claim C1 witness: a SELECT statement smuggling a standalone DROP is
rejected with a message naming a standalone keyword. -/
theorem claim_C1_witness :
    "DROP" ∈ dangerousKeywords ∧
    standaloneWs "SELECT * FROM A; DROP TABLE B" "DROP" = true ∧
    (validateSql "SELECT * FROM A; DROP TABLE B").valid = false ∧
    (∃ k, k ∈ dangerousKeywords ∧
      standaloneWs "SELECT * FROM A; DROP TABLE B" k = true ∧
      (validateSql "SELECT * FROM A; DROP TABLE B").error
        = some ("不允许使用 " ++ k ++ " 关键字")) :=
  ⟨by decide, by decide,
    (claim_C1 "SELECT * FROM A; DROP TABLE B" "DROP" (by decide) (by decide)).1,
    (claim_C1 "SELECT * FROM A; DROP TABLE B" "DROP" (by decide) (by decide)).2.1
      (by decide)⟩

/-- Claim C4 counterexample: `"UPDATE T SET A = DELETE"` is an UPDATE
statement lacking a standalone WHERE token, yet `validateDmlSql` reports
the blacklist keyword DELETE, not the WHERE-required message — refuting
the claim's first universal as stated. -/
theorem claim_C4_cex :
    jsStartsWith (jsUpper (jsTrim "UPDATE T SET A = DELETE")) "UPDATE" = true ∧
    containsWordWhere (jsTrim "UPDATE T SET A = DELETE") = false ∧
    validateDmlSql "UPDATE T SET A = DELETE"
      = ⟨false, some "SQL 中包含禁止的关键字: DELETE", some "UPDATE"⟩ ∧
    jsIncludes "SQL 中包含禁止的关键字: DELETE" "WHERE" = false := by
  decide

/-- Claim C4 (amended): for every UPDATE statement containing no
blacklisted keyword as a standalone token, lacking a standalone WHERE
token makes `validateDmlSql` return invalid with the WHERE-required
message, and containing a standalone WHERE token makes it return valid
with verb UPDATE; in particular the two scenario-C statements behave as
claimed. -/
theorem claim_C4 (sql : String)
    (hupd : jsStartsWith (jsUpper (jsTrim sql)) "UPDATE" = true)
    (hbl : ∀ k ∈ DML_BLACKLIST_KEYWORDS, standaloneDml (jsTrim sql) k = false) :
    (containsWordWhere (jsTrim sql) = false →
      validateDmlSql sql
        = ⟨false, some "UPDATE 语句必须包含 WHERE 子句，防止全表更新", some "UPDATE"⟩) ∧
    (containsWordWhere (jsTrim sql) = true →
      validateDmlSql sql = ⟨true, none, some "UPDATE"⟩) ∧
    validateDmlSql "UPDATE EMPLOYEES SET SALARY=1"
      = ⟨false, some "UPDATE 语句必须包含 WHERE 子句，防止全表更新", some "UPDATE"⟩ ∧
    validateDmlSql "UPDATE EMPLOYEES SET SALARY=1 WHERE ID=1"
      = ⟨true, none, some "UPDATE"⟩ := by
  have hne : sql ≠ "" := by
    rintro rfl
    exact absurd hupd (by decide)
  have hins : jsStartsWith (jsUpper (jsTrim sql)) "INSERT" = false :=
    startsWith_update_not_insert _ hupd
  have hverb : DML_ALLOWED_VERBS.find?
      (fun v => jsStartsWith (jsUpper (jsTrim sql)) v) = some "UPDATE" := by
    unfold DML_ALLOWED_VERBS
    rw [List.find?_cons_of_neg _ (by simp [hins]),
      List.find?_cons_of_pos _ (by simp [hupd])]
  have hblfind : DML_BLACKLIST_KEYWORDS.find?
      (fun k => standaloneDml (jsTrim sql) k) = none := by
    rw [List.find?_eq_none]
    intro k hk
    simp [hbl k hk]
  refine ⟨?_, ?_, by decide, by decide⟩
  · intro hw
    unfold validateDmlSql
    rw [if_neg (by simpa using hne)]
    simp [hverb, hblfind, hw]
  · intro hw
    unfold validateDmlSql
    rw [if_neg (by simpa using hne)]
    simp [hverb, hblfind, hw]

/-- Claim C4 witness: the two scenario-C statements, with the amended
hypotheses discharged concretely. -/
theorem claim_C4_witness :
    jsStartsWith (jsUpper (jsTrim "UPDATE EMPLOYEES SET SALARY=1")) "UPDATE" = true ∧
    containsWordWhere (jsTrim "UPDATE EMPLOYEES SET SALARY=1") = false ∧
    validateDmlSql "UPDATE EMPLOYEES SET SALARY=1"
      = ⟨false, some "UPDATE 语句必须包含 WHERE 子句，防止全表更新", some "UPDATE"⟩ ∧
    containsWordWhere (jsTrim "UPDATE EMPLOYEES SET SALARY=1 WHERE ID=1") = true ∧
    validateDmlSql "UPDATE EMPLOYEES SET SALARY=1 WHERE ID=1"
      = ⟨true, none, some "UPDATE"⟩ :=
  ⟨by decide, by decide,
    (claim_C4 "UPDATE EMPLOYEES SET SALARY=1" (by decide)
      (by decide)).1 (by decide),
    by decide,
    (claim_C4 "UPDATE EMPLOYEES SET SALARY=1 WHERE ID=1" (by decide)
      (by decide)).2.1 (by decide)⟩

/-- Claim C3 counterexample: `insertRecord` executes its INSERT with
`autoCommit: true`, and on an execution error it issues no ROLLBACK (the
single INSERT call is the whole trace) — refuting the claim that every
DML write operation runs with auto-commit disabled and rolls back on
error.  The error itself is still classified. -/
theorem claim_C3_cex :
    (insertRecord none "T" [("A", InsertValue.inum 1)] (.error "boom")).2
      = [⟨"INSERT INTO T (A) VALUES (:A)", some true⟩] ∧
    (∀ call ∈ (insertRecord none "T" [("A", InsertValue.inum 1)] (.error "boom")).2,
      call.autoCommit = some true ∧ jsIncludes call.sql "ROLLBACK" = false) ∧
    (insertRecord none "T" [("A", InsertValue.inum 1)] (.error "boom")).1
      = .error (handleDmlError "boom" "INSERT INTO T (A) VALUES (:A)") := by
  refine ⟨rfl, ?_, rfl⟩
  intro call hcall
  rw [show (insertRecord none "T" [("A", InsertValue.inum 1)] (.error "boom")).2
      = [(⟨"INSERT INTO T (A) VALUES (:A)", some true⟩ : DbCall)] from rfl] at hcall
  rcases List.mem_singleton.mp hcall with rfl
  exact ⟨rfl, by decide⟩

/-- Claim C3 (amended): `executeDml` executes the validated statement
with auto-commit disabled, issues an explicit COMMIT on success and an
explicit ROLLBACK on any execution (or commit) error, surfaces the
classified execution error while swallowing any rollback failure (the
outcome is independent of the rollback result); `insertRecord`, by
contrast, executes its INSERT with auto-commit enabled and issues no
explicit COMMIT or ROLLBACK, classifying execution errors via
`handleDmlError`. -/
theorem claim_C3 (d : DmlDriver) (sql : String)
    (hv : (validateDmlSql sql).valid = true)
    (env : Option String) (table : String) (data : List (String × InsertValue))
    (processed : List (String × ProcessedValue))
    (hacc : (checkTableAccess env table).allowed = true)
    (hdata : data.isEmpty = false)
    (hproc : processAll data = .ok processed) :
    (∀ e, d.execRes = .error e →
      executeDml d sql
        = (.error (handleDmlError e sql), [⟨sql, some false⟩, ⟨"ROLLBACK", none⟩])) ∧
    (∀ n, d.execRes = .ok n → d.commitRes = .ok () →
      executeDml d sql
        = (.ok ⟨(validateDmlSql sql).verb, n, sql⟩,
            [⟨sql, some false⟩, ⟨"COMMIT", none⟩])) ∧
    (∀ n e, d.execRes = .ok n → d.commitRes = .error e →
      executeDml d sql
        = (.error (handleDmlError e sql),
            [⟨sql, some false⟩, ⟨"COMMIT", none⟩, ⟨"ROLLBACK", none⟩])) ∧
    (∀ r, executeDml ⟨d.execRes, d.commitRes, r⟩ sql = executeDml d sql) ∧
    (∀ e, insertRecord env table data (.error e)
      = (.error (handleDmlError e (insertSql table processed)),
          [⟨insertSql table processed, some true⟩])) ∧
    (∀ n, insertRecord env table data (.ok n)
      = (.ok ⟨jsUpper table, n, data.map (fun p => p.1), insertSql table processed⟩,
          [⟨insertSql table processed, some true⟩])) := by
  refine ⟨?_, ?_, ?_, ?_, ?_, ?_⟩
  · intro e he
    unfold executeDml
    simp [hv, he]
  · intro n hn hc
    unfold executeDml
    simp [hv, hn, hc]
  · intro n e hn hc
    unfold executeDml
    simp [hv, hn, hc]
  · intro r
    unfold executeDml
    rfl
  · intro e
    unfold insertRecord
    simp [hacc, hdata, hproc]
  · intro n
    unfold insertRecord
    simp [hacc, hdata, hproc]

/-- Claim C3 witness: a failing UPDATE is rolled back and classified,
and a failing structured insert produces only the auto-committed INSERT
call. -/
theorem claim_C3_witness :
    (validateDmlSql "UPDATE T SET A=1 WHERE ID=1").valid = true ∧
    (checkTableAccess none "T").allowed = true ∧
    ([("A", InsertValue.inum 1)] : List (String × InsertValue)).isEmpty = false ∧
    processAll [("A", InsertValue.inum 1)]
      = .ok [("A", ⟨.bnum 1, false, none⟩)] ∧
    executeDml failingDmlDriver "UPDATE T SET A=1 WHERE ID=1"
      = (.error (handleDmlError "ORA-00001: unique constraint violated"
            "UPDATE T SET A=1 WHERE ID=1"),
          [⟨"UPDATE T SET A=1 WHERE ID=1", some false⟩, ⟨"ROLLBACK", none⟩]) ∧
    insertRecord none "T" [("A", InsertValue.inum 1)] (.error "boom")
      = (.error (handleDmlError "boom"
            (insertSql "T" [("A", ⟨.bnum 1, false, none⟩)])),
          [⟨insertSql "T" [("A", ⟨.bnum 1, false, none⟩)], some true⟩]) :=
  ⟨by decide, by decide, by decide, rfl,
    (claim_C3 failingDmlDriver "UPDATE T SET A=1 WHERE ID=1" (by decide)
      none "T" [("A", InsertValue.inum 1)] [("A", ⟨.bnum 1, false, none⟩)]
      (by decide) (by decide) rfl).1
        "ORA-00001: unique constraint violated" rfl,
    (claim_C3 failingDmlDriver "UPDATE T SET A=1 WHERE ID=1" (by decide)
      none "T" [("A", InsertValue.inum 1)] [("A", ⟨.bnum 1, false, none⟩)]
      (by decide) (by decide) rfl).2.2.2.2.1 "boom"⟩

/-- Claim C8 counterexample: when the probe on the first connection
fails, the retry checkout's connection (here connection 2) is returned
without being probed — refuting the claim that a liveness probe is
performed on every checked-out connection. -/
theorem claim_C8_cex :
    (getConnection true stalePoolDriver).1 = .ok 2 ∧
    (getConnection true stalePoolDriver).2
      = [.checkout, .ping 1, .closeConn 1, .checkout] ∧
    PoolCall.ping 2 ∉ (getConnection true stalePoolDriver).2 := by
  refine ⟨rfl, rfl, ?_⟩
  rw [show (getConnection true stalePoolDriver).2
      = [.checkout, .ping 1, .closeConn 1, .checkout] from rfl]
  decide

/-- Claim C8 (amended): `getConnection` probes the first checked-out
connection with a round-trip query; if the probe fails, the stale
connection is discarded with a best-effort close whose outcome never
influences the result, and exactly one retry checkout is attempted,
whose connection is returned without a further probe; a failure of the
initial or the retry checkout propagates as a classified
`OracleMapError` whose code always maps to the connection exit class,
never as an unclassified driver exception. -/
theorem claim_C8 (d : PoolDriver) :
    (∀ c, d.checkout1 = .ok c → d.pingRes c = .ok () →
      getConnection true d = (.ok c, [.checkout, .ping c])) ∧
    (∀ c pe c2, d.checkout1 = .ok c → d.pingRes c = .error pe →
      d.checkout2 = .ok c2 →
      getConnection true d
        = (.ok c2, [.checkout, .ping c, .closeConn c, .checkout])) ∧
    (∀ c pe e, d.checkout1 = .ok c → d.pingRes c = .error pe →
      d.checkout2 = .error e →
      getConnection true d
        = (.error (handleConnectionError e),
            [.checkout, .ping c, .closeConn c, .checkout])) ∧
    (∀ e, d.checkout1 = .error e →
      getConnection true d = (.error (handleConnectionError e), [.checkout])) ∧
    (∀ f, getConnection true ⟨d.checkout1, d.pingRes, f, d.checkout2⟩
      = getConnection true d) ∧
    (∀ e, getExitCode (handleConnectionError e).code = ExitCode.CONNECTION_ERROR) := by
  refine ⟨?_, ?_, ?_, ?_, ?_, ?_⟩
  · intro c h1 h2
    unfold getConnection
    simp [h1, h2]
  · intro c pe c2 h1 h2 h3
    unfold getConnection
    simp [h1, h2, h3]
  · intro c pe e h1 h2 h3
    unfold getConnection
    simp [h1, h2, h3]
  · intro e h1
    unfold getConnection
    simp [h1]
  · intro f
    unfold getConnection
    rfl
  · intro e
    rcases handleConnectionError_code_mem e with h | h | h <;>
      rw [h] <;> decide

/-- Claim C8 witness: a stale first connection followed by a successful
retry, and a stale first connection followed by a failing retry that is
classified to the connection exit class. -/
theorem claim_C8_witness :
    stalePoolDriver.checkout1 = .ok 1 ∧
    stalePoolDriver.pingRes 1
      = .error "ORA-03113: end-of-file on communication channel" ∧
    stalePoolDriver.checkout2 = .ok 2 ∧
    getConnection true stalePoolDriver
      = (.ok 2, [.checkout, .ping 1, .closeConn 1, .checkout]) ∧
    deadPoolDriver.checkout2 = .error "ORA-12541: TNS:no listener" ∧
    getConnection true deadPoolDriver
      = (.error (handleConnectionError "ORA-12541: TNS:no listener"),
          [.checkout, .ping 1, .closeConn 1, .checkout]) ∧
    getExitCode
      (handleConnectionError "ORA-12541: TNS:no listener").code
        = ExitCode.CONNECTION_ERROR :=
  ⟨rfl, rfl, rfl,
    (claim_C8 stalePoolDriver).2.1 1
      "ORA-03113: end-of-file on communication channel" 2 rfl rfl rfl,
    rfl,
    (claim_C8 deadPoolDriver).2.2.1 1
      "ORA-03113: end-of-file on communication channel"
      "ORA-12541: TNS:no listener" rfl rfl rfl,
    (claim_C8 deadPoolDriver).2.2.2.2.2 "ORA-12541: TNS:no listener"⟩
